import Mathlib

/-!
Verification of the docstring/signature consistency checker
(source: src/docstring_checker.py) against its design specification.

The development is a shallow embedding of the Python module:

* Python strings are modelled as Lean `String` / `List Char`.
* The regular expressions used by the source are small and fixed, so each
  one is embedded as an explicit scanning function whose behaviour matches
  the Python `re` semantics (leftmost match, greedy/lazy quantifiers,
  backtracking) for that particular pattern.  The relevant pattern is
  quoted next to each function.
* The fragment of the Python abstract syntax tree that the checker
  inspects is modelled by the inductive type `Stmt` below; `ast.walk`
  (breadth-first traversal) is modelled by `walkLevels`.
* Python `dict` objects (insertion ordered, last assignment wins while
  keeping the original position) are modelled as association lists with
  `dictInsert` / `dictGet`.
* The only partial operation in the translated code is list subscription
  in `get_function_args_with_defaults`; it is modelled by `pyIndex`
  returning `Option`, and the fallibility is threaded through
  `check_function`, which therefore returns `Option (List Finding)`.

Character classes: the source applies `re` patterns to docstrings; the
embedding fixes the ASCII meaning of the character classes involved
(`\s`, `\w`, `str.isalpha`), which agrees with Python on ASCII text.
-/

/-- Python whitespace (the `\s` class and `str.strip` default set), ASCII part. -/
def isSpaceChar (c : Char) : Bool :=
  c = ' ' || c = '\t' || c = '\n' || c = '\r' || c = '\x0b' || c = '\x0c'

/-- The regex word class `\w`, ASCII part: letters, digits, underscore. -/
def isWordChar (c : Char) : Bool :=
  c.isAlphanum || c = '_'

/-- Check that `p` is a prefix of `s` (used to model matching a literal part
of a regex at a given position). -/
def startsWithChars : List Char → List Char → Bool
  | [], _ => true
  | _ :: _, [] => false
  | p :: ps, c :: cs => p = c && startsWithChars ps cs

/-- Python substring containment `sub in s`. -/
def containsSub (pat : List Char) : List Char → Bool
  | [] => startsWithChars pat []
  | c :: cs => startsWithChars pat (c :: cs) || containsSub pat cs

/-- Python substring containment on `String` (the `in` operator). -/
def pyIn (sub s : String) : Bool := containsSub sub.data s.data

/-- Python truthiness of an optional string (`None` and the empty string are
falsy, any other string is truthy). -/
def pyTruthy : Option String → Bool
  | none => false
  | some s => s ≠ ""

/-- Python `f"{x}"` applied to an optional string: `None` prints as "None". -/
def pyStr : Option String → String
  | none => "None"
  | some s => s

/-- Python `str.split` on a single newline separator: always returns at least
one (possibly empty) piece. -/
def splitLinesNL : List Char → List (List Char)
  | [] => [[]]
  | c :: rest =>
    if c = '\n' then [] :: splitLinesNL rest
    else
      match splitLinesNL rest with
      | [] => [[c]]
      | line :: more => (c :: line) :: more

/-- Python `str.splitlines` restricted to `\n` separators: like
`split("\n")` but the empty string gives `[]` and one trailing newline does
not produce a trailing empty line. -/
def pySplitlines (l : List Char) : List (List Char) :=
  if l.isEmpty then []
  else if l.getLast? = some '\n' then (splitLinesNL l).dropLast
  else splitLinesNL l

/-- Python `str.strip()` (both ends, default whitespace). -/
def stripChars (l : List Char) : List Char :=
  ((l.dropWhile isSpaceChar).reverse.dropWhile isSpaceChar).reverse

/-- Python `str.lower()`, ASCII part. -/
def lowerChars (l : List Char) : List Char := l.map Char.toLower

/-- The group `(.*?)(\n\n|\Z)` with `DOTALL`: lazily take characters up to
(excluding) the first occurrence of two consecutive newlines, or the whole
text when there is none. -/
def takeUntilDoubleNL : List Char → List Char
  | '\n' :: '\n' :: _ => []
  | c :: rest => c :: takeUntilDoubleNL rest
  | [] => []

/-- Python `dict` assignment `d[k] = v`: overwrite in place when the key is
present, append otherwise (insertion order is preserved). -/
def dictInsert {α : Type} (k : String) (v : α) : List (String × α) → List (String × α)
  | [] => [(k, v)]
  | (k2, v2) :: rest => if k2 = k then (k2, v) :: rest else (k2, v2) :: dictInsert k v rest

/-- Python `dict.get(k)`. -/
def dictGet {α : Type} (d : List (String × α)) (k : String) : Option α :=
  (d.find? (fun p => p.1 == k)).map (fun p => p.2)

/-- One line of the Args block matched against the anchored pattern
`\s*(\w+)\s*\(([^)]+)\):` of `extract_args_from_docstring` (line 60 of the
source).  The built-in backtracking is resolved: `\s*` and `\w+` are over
disjoint character classes, and `[^)]+` stops at the first closing
parenthesis, which must be followed directly by a colon. -/
def parseArgLine (line : List Char) : Option (String × String) :=
  let l1 := line.dropWhile isSpaceChar
  let name := l1.takeWhile isWordChar
  if name.isEmpty then none
  else
    let l2 := (l1.drop name.length).dropWhile isSpaceChar
    match l2 with
    | '(' :: rest =>
      let ty := rest.takeWhile (fun c => c ≠ ')')
      if ty.isEmpty then none
      else
        match rest.drop ty.length with
        | ')' :: ':' :: _ => some (name.asString, ty.asString)
        | _ => none
    | _ => none

/-- The search for `Args:\s*(.*?)(\n\n|\Z)` with `DOTALL` (line 55 of the
source): the pattern matches at every occurrence of the literal `Args:`
(the tail always matches thanks to the `\Z` alternative), so the leftmost
occurrence wins; group 1 starts after the maximal whitespace run and stops
before the first blank line. -/
def searchArgsCore : List Char → Option (List Char)
  | [] => none
  | c :: rest =>
    if startsWithChars ("Args:".data) (c :: rest) then
      some (takeUntilDoubleNL (((c :: rest).drop 5).dropWhile isSpaceChar))
    else searchArgsCore rest

/-- Source `extract_args_from_docstring` (lines 42-64): collect
`name (type):` entries of the Args block into a dict. -/
def extract_args_from_docstring (docstring : Option String) : List (String × String) :=
  if ¬ pyTruthy docstring then []
  else
    match searchArgsCore (docstring.getD "").data with
    | none => []
    | some argsText =>
      (splitLinesNL argsText).foldl
        (fun acc line =>
          match parseArgLine line with
          | some (n, t) => dictInsert n t acc
          | none => acc)
        []

/-- One stripped line matched against the anchored pattern
`(\w+)(?:\s*\([^)]+\))?:` of `extract_docstring_arg_order` (line 89 of the
source).  The optional group is tried first; if it consumes text but the
final colon fails, the engine retries without the group, which then
requires a colon directly after the name. -/
def parseOrderLine (line : List Char) : Option String :=
  let name := line.takeWhile isWordChar
  if name.isEmpty then none
  else
    let rest := line.drop name.length
    let afterGroup : Option (List Char) :=
      match rest.dropWhile isSpaceChar with
      | '(' :: r2 =>
        let ty := r2.takeWhile (fun c => c ≠ ')')
        if ty.isEmpty then none
        else
          match r2.drop ty.length with
          | ')' :: r3 => some r3
          | _ => none
      | _ => none
    match afterGroup with
    | some r3 =>
      if r3.head? = some ':' then some name.asString
      else if rest.head? = some ':' then some name.asString
      else none
    | none => if rest.head? = some ':' then some name.asString else none

/-- The loop body of `extract_docstring_arg_order` (lines 80-93): once a
line whose lowercase strip starts with `args:` has been seen, every line
beginning with a letter or underscore is offered to `parseOrderLine`, the
name `self` is skipped, and the first line not beginning with an
identifier character ends the block. -/
def argOrderLoop : Bool → List (List Char) → List String
  | _, [] => []
  | inArgs, line :: rest =>
    let l := stripChars line
    if startsWithChars ("args:".data) (lowerChars l) then argOrderLoop true rest
    else if inArgs then
      match l with
      | [] => []
      | c :: _ =>
        if ¬ (c.isAlpha || c = '_') then []
        else
          match parseOrderLine l with
          | some n => if n ≠ "self" then n :: argOrderLoop inArgs rest else argOrderLoop inArgs rest
          | none => argOrderLoop inArgs rest
    else argOrderLoop inArgs rest

/-- Source `extract_docstring_arg_order` (lines 67-93). -/
def extract_docstring_arg_order (docstring : Option String) : List String :=
  if ¬ pyTruthy docstring then []
  else argOrderLoop false (pySplitlines (docstring.getD "").data)

/-- The suffix `[^:]+` part of the pattern `Returns:\s*\n\s*([^:]+)`, after
the newline has been fixed: the second `\s*` is greedy, and when the first
character after the whitespace run is a colon (or the text ends) the
engine backtracks one whitespace character so that `[^:]+` is non-empty. -/
def secondPartMatch (rest : List Char) : Option (List Char) :=
  let r2 := rest.takeWhile isSpaceChar
  let after := rest.drop r2.length
  match after with
  | [] => if r2.isEmpty then none else some (r2.drop (r2.length - 1))
  | c :: _ =>
    if c = ':' then
      if r2.isEmpty then none else some (r2.drop (r2.length - 1))
    else some (after.takeWhile (fun d => d ≠ ':'))

/-- Candidate positions for the `\n` of `Returns:\s*\n\s*([^:]+)`: indices
of newline characters inside the maximal whitespace run, tried greedily
from the rightmost one. -/
def newlineIdxs (w : List Char) : List Nat :=
  (List.range w.length).filter (fun k => w.get? k = some '\n')

/-- Attempt the tail `\s*\n\s*([^:]+)` of the Returns pattern at a fixed
occurrence of the literal `Returns:`. -/
def returnsTailMatch (t : List Char) : Option (List Char) :=
  let w := t.takeWhile isSpaceChar
  ((newlineIdxs w).reverse).findSome? (fun k => secondPartMatch (t.drop (k + 1)))

/-- The search for `Returns:\s*\n\s*([^:]+)` (line 159 of the source):
occurrences of the literal `Returns:` are tried from the left; the first
one whose tail matches supplies group 1. -/
def searchReturnsCore : List Char → Option (List Char)
  | [] => none
  | c :: rest =>
    if startsWithChars ("Returns:".data) (c :: rest) then
      match returnsTailMatch ((c :: rest).drop 8) with
      | some g => some g
      | none => searchReturnsCore rest
    else searchReturnsCore rest

/-- Source `extract_return_from_docstring` (lines 147-162). -/
def extract_return_from_docstring (docstring : Option String) : Option String :=
  if ¬ pyTruthy docstring then none
  else (searchReturnsCore (docstring.getD "").data).map List.asString


/-!
The abstract syntax tree fragment.  `Stmt` models a Python statement as far
as the checker observes it: a `return` statement with the unparsed text of
its expression (or `none` for a bare return), a nested function definition
carrying the data the checker reads off a `FunctionDef` node, any other
compound statement with its child statement blocks, and any leaf
statement.  Expression texts (annotations, defaults) are kept as the
verbatim output of `ast.unparse`, which is how the source consumes them.
-/

/-- One positional parameter of the `args.args` list: its name and the
unparsed annotation text, if any. -/
structure Arg where
  arg : String
  annotation : Option String
deriving DecidableEq, Repr

/-- Python statements, as far as the checker observes them. -/
inductive Stmt where
  | ret (value : Option String)
  | funcDef (name : String) (lineno : Nat) (args : List Arg) (defaults : List String)
      (returns : Option String) (docstring : Option String) (body : List Stmt)
  | branch (body orelse : List Stmt)
  | simple

/-- The view of a `FunctionDef` node used by the checker: `args`/`defaults`
mirror `function.args.args` and `function.args.defaults`, `returns` is the
unparsed return annotation, `docstring` is the value of
`ast.get_docstring(function)` (already cleaned, or `none`). -/
structure FunctionDef where
  name : String
  lineno : Nat
  args : List Arg
  defaults : List String
  returns : Option String
  docstring : Option String
  body : List Stmt

/-- Recover the `FunctionDef` view from a function definition statement. -/
def stmtFuncView : Stmt → Option FunctionDef
  | .funcDef n l a d r doc b => some ⟨n, l, a, d, r, doc, b⟩
  | _ => none

/-- The child statements of a node, in source order: `ast.iter_child_nodes`
restricted to statements (expressions contain no function definitions in
this fragment). -/
def childStmts : Stmt → List Stmt
  | .funcDef _ _ _ _ _ _ body => body
  | .branch b o => b ++ o
  | _ => []

mutual
/-- Number of statement nodes in a statement (termination measure and fuel
for the breadth-first walk). -/
def stmtSize : Stmt → Nat
  | .ret _ => 1
  | .simple => 1
  | .funcDef _ _ _ _ _ _ body => 1 + stmtsSize body
  | .branch b o => 1 + stmtsSize b + stmtsSize o
/-- Number of statement nodes in a block. -/
def stmtsSize : List Stmt → Nat
  | [] => 0
  | s :: r => stmtSize s + stmtsSize r
end

/-- Breadth-first traversal with explicit fuel: one level of the frontier
is emitted per unit of fuel.  `stmtsSize` fuel is always sufficient, since
every level of a non-empty frontier consumes at least one node. -/
def walkFuel : Nat → List Stmt → List Stmt
  | _, [] => []
  | 0, q => q
  | fuel + 1, q => q ++ walkFuel fuel (q.flatMap childStmts)

/-- `ast.walk` from a frontier of statements: the nodes of the forest in
breadth-first order (each level in source order). -/
def walkLevels (q : List Stmt) : List Stmt := walkFuel (stmtsSize q) q

/-- Source `get_functions_from_file` (lines 96-113), modelled from the
parsed module body (file access and `ast.parse` are outside the model):
`ast.walk` over the tree, keeping the `FunctionDef` nodes.  The `Module`
root node emitted first by `ast.walk` is not a function definition, so
walking the top-level statement list is equivalent. -/
def get_functions_from_file (moduleBody : List Stmt) : List FunctionDef :=
  (walkLevels moduleBody).filterMap stmtFuncView

/-- Source `function_has_return_value` (lines 116-129): `ast.walk` over the
function node, looking for a `Return` node whose `value` is not `None`.
The function node itself is not a `Return` node, so walking its body
yields the same result. -/
def function_has_return_value (f : FunctionDef) : Bool :=
  (walkLevels f.body).any fun s =>
    match s with
    | .ret (some _) => true
    | _ => false

/-- Source `extract_return_from_function` (lines 132-144): the unparsed
return annotation, or `None` when there is no annotation (the model stores
the unparsed text directly). -/
def extract_return_from_function (f : FunctionDef) : Option String :=
  f.returns

/-- Python list subscription `l[i]` with an `int` index: negative indices
address from the end, and an out-of-range index is an `IndexError`,
modelled as `none`. -/
def pyIndex (l : List String) (i : Int) : Option String :=
  if 0 ≤ i ∧ i < (l.length : Int) then l.get? i.toNat
  else if -(l.length : Int) ≤ i ∧ i < 0 then l.get? ((l.length : Int) + i).toNat
  else none

/-- The per-parameter record built by `get_function_args_with_defaults`:
unparsed annotation text and unparsed default text, either may be absent. -/
structure ArgInfo where
  type : Option String
  default : Option String
deriving DecidableEq, Repr

/-- The loop of `get_function_args_with_defaults` (lines 28-38): `i`
enumerates the parameters, a parameter has a default iff
`i >= num_args - num_defaults` (computed over `Int`, as Python does), and
the default is `defaults[i - (num_args - num_defaults)]`.  The subscription
is the one fallible operation of the whole checker. -/
def gfawdLoop (numArgs numDefaults : Int) (defaults : List String) :
    Nat → List Arg → List (String × ArgInfo) → Option (List (String × ArgInfo))
  | _, [], acc => some acc
  | i, a :: rest, acc =>
    let hasDefault : Bool := numArgs - numDefaults ≤ (i : Int)
    let dv : Option (Option String) :=
      if hasDefault then (pyIndex defaults ((i : Int) - (numArgs - numDefaults))).map some
      else some none
    match dv with
    | none => none
    | some d => gfawdLoop numArgs numDefaults defaults (i + 1) rest (dictInsert a.arg ⟨a.annotation, d⟩ acc)

/-- Source `get_function_args_with_defaults` (lines 13-39). -/
def get_function_args_with_defaults (f : FunctionDef) : Option (List (String × ArgInfo)) :=
  gfawdLoop f.args.length f.defaults.length f.defaults 0 f.args []

/-- The kinds of findings `check_function` can append, one constructor per
message template of the source, carrying the data interpolated into the
message.  Spec names: MissingFromDocstring (line 187),
UndeclaredTypeDocumented (line 192), UntypedParameterWarning (line 195),
TypeMismatch (line 198), MissingOptionalMarker (line 200),
SpuriousOptionalMarker (line 202), the literal message
`Docstring not found.` (line 204, not named by the spec),
NoReturnTypeDeclared (line 210), ReturnValueButNoneDeclared (line 212),
ReturnDeclaredButNoValue (line 214), ReturnTypeMismatch (line 218),
ReturnTypeUndocumented (line 220), ArgumentOrderMismatch (line 222). -/
inductive Finding where
  | missingFromDocstring (name : String)
  | undeclaredTypeDocumented (name : String) (docType : String)
  | untypedParameterWarning (name : String)
  | typeMismatch (name : String) (declared : String) (documented : String)
  | missingOptionalMarker (name : String)
  | spuriousOptionalMarker (name : String)
  | docstringNotFound
  | noReturnTypeDeclared
  | returnValueButNoneDeclared
  | returnDeclaredButNoValue (declared : String)
  | returnTypeMismatch (declared : String) (documented : String)
  | returnTypeUndocumented (declared : String)
  | argumentOrderMismatch (sigOrder : List String) (docOrder : List String)
deriving DecidableEq, Repr

/-- One iteration of the per-parameter loop of `check_function`
(lines 181-204), mirroring the nesting of the source exactly: the
`not in docstring` branch, otherwise the untyped block (lines 190-195)
followed by the documented-type block (lines 196-202) with its
`Docstring not found.` else branch (line 204). -/
def checkParam (verbose : Bool) (docArgs : List (String × String))
    (name : String) (info : ArgInfo) : List Finding :=
  let type_hint := info.type
  let default := info.default
  let doc_type := dictGet docArgs name
  if name ≠ "self" then
    if pyTruthy type_hint ∧ doc_type = none then [.missingFromDocstring name]
    else
      let expected_doc_type : Option String :=
        if default ≠ none then some (pyStr type_hint ++ ", optional") else type_hint
      (if ¬ pyTruthy type_hint then
        (if pyTruthy doc_type then [.undeclaredTypeDocumented name (doc_type.getD "")]
         else if verbose then [.untypedParameterWarning name]
         else [])
       else []) ++
      (if pyTruthy doc_type then
        (if pyTruthy type_hint ∧ ¬ (doc_type = type_hint ∨ doc_type = expected_doc_type) then
          [.typeMismatch name (type_hint.getD "") (doc_type.getD "")]
         else if default ≠ none ∧ ¬ pyIn "optional" (doc_type.getD "") then
          [.missingOptionalMarker name]
         else if default = none ∧ pyTruthy doc_type ∧ pyIn "optional" (doc_type.getD "") then
          [.spuriousOptionalMarker name]
         else [])
       else [.docstringNotFound])
  else []

/-- The return-type rules of `check_function` (lines 205-220): the five
branches of the `if`/`elif` chain, in source order. -/
def returnRuleFindings (f : FunctionDef) (docstring : Option String) : List Finding :=
  let has_return := function_has_return_value f
  let func_return := extract_return_from_function f
  let doc_return := extract_return_from_docstring docstring
  if ¬ pyTruthy func_return then [.noReturnTypeDeclared]
  else if has_return ∧ func_return = some "None" then [.returnValueButNoneDeclared]
  else if ¬ has_return ∧ func_return ≠ some "None" then
    [.returnDeclaredButNoValue (func_return.getD "")]
  else if pyTruthy func_return ∧ pyTruthy doc_return ∧ func_return ≠ doc_return then
    [.returnTypeMismatch (func_return.getD "") (doc_return.getD "")]
  else if pyTruthy func_return ∧ ¬ pyTruthy doc_return ∧ func_return ≠ some "None" then
    [.returnTypeUndocumented (func_return.getD "")]
  else []

/-- The signature-side ordering compared on line 221:
`[arg.arg for arg in function.args.args if arg.arg != "self"]`. -/
def nonSelfNames (f : FunctionDef) : List String :=
  (f.args.map Arg.arg).filter (fun n => n ≠ "self")

/-- Lines 205-222 of `check_function`: the return-rule chain continued by
the final `elif` (evaluated only when no return rule fired) that emits the
order-mismatch finding when `verbose` is set and the orders differ. -/
def returnAndOrderFindings (f : FunctionDef) (docstring : Option String) (verbose : Bool) :
    List Finding :=
  match returnRuleFindings f docstring with
  | [] =>
    if nonSelfNames f ≠ extract_docstring_arg_order docstring ∧ verbose then
      [.argumentOrderMismatch (nonSelfNames f) (extract_docstring_arg_order docstring)]
    else []
  | l => l

/-- Source `check_function` (lines 165-223): the per-parameter findings in
parameter order, then the return/order findings.  The result is `none`
exactly when `get_function_args_with_defaults` hits an `IndexError`
(which, as proved below, never happens). -/
def check_function (f : FunctionDef) (verbose : Bool) : Option (List Finding) :=
  match get_function_args_with_defaults f with
  | none => none
  | some argsInfo =>
    let docstring := f.docstring
    let docArgs := extract_args_from_docstring docstring
    some ((argsInfo.map (fun p => checkParam verbose docArgs p.1 p.2)).flatten
      ++ returnAndOrderFindings f docstring verbose)

/-- The per-parameter part of `check_function` in isolation (lines
177-204), used to phrase hypotheses about parameter-side findings. -/
def paramFindings (f : FunctionDef) (verbose : Bool) : Option (List Finding) :=
  (get_function_args_with_defaults f).map
    (fun argsInfo =>
      (argsInfo.map
        (fun p => checkParam verbose (extract_args_from_docstring f.docstring) p.1 p.2)).flatten)

/-!
Structural facts about the breadth-first walk: the fuel `stmtsSize q` is
always sufficient, the walk satisfies the level-by-level recursion
equation, and membership in the walk is exactly descendant-hood.
-/

theorem stmtsSize_append (a b : List Stmt) :
    stmtsSize (a ++ b) = stmtsSize a + stmtsSize b := by
  induction a with
  | nil => simp [stmtsSize]
  | cons s r ih => simp [stmtsSize, ih]; omega

theorem stmtSize_pos (s : Stmt) : 1 ≤ stmtSize s := by
  cases s <;> (simp only [stmtSize]; omega)

theorem childStmts_size (s : Stmt) : stmtsSize (childStmts s) + 1 ≤ stmtSize s := by
  cases s <;> (simp only [childStmts, stmtSize, stmtsSize, stmtsSize_append]; omega)

theorem flatMap_childStmts_size (q : List Stmt) :
    stmtsSize (q.flatMap childStmts) + q.length ≤ stmtsSize q := by
  induction q with
  | nil => simp [stmtsSize]
  | cons s r ih =>
    have h1 := childStmts_size s
    simp only [List.flatMap_cons, stmtsSize_append, stmtsSize, List.length_cons]
    omega

theorem walkFuel_congr (f1 : Nat) : ∀ (f2 : Nat) (q : List Stmt),
    stmtsSize q ≤ f1 → stmtsSize q ≤ f2 → walkFuel f1 q = walkFuel f2 q := by
  induction f1 with
  | zero =>
    intro f2 q h1 _
    cases q with
    | nil => cases f2 <;> simp [walkFuel]
    | cons s r =>
      exfalso
      have := stmtSize_pos s
      simp [stmtsSize] at h1
      omega
  | succ f1 ih =>
    intro f2 q h1 h2
    cases q with
    | nil => cases f2 <;> simp [walkFuel]
    | cons s r =>
      have hs := stmtSize_pos s
      cases f2 with
      | zero => exfalso; simp [stmtsSize] at h2; omega
      | succ f2 =>
        simp only [walkFuel]
        congr 1
        have hf := flatMap_childStmts_size (s :: r)
        simp only [List.length_cons] at hf
        apply ih <;> omega

/-- The walk emits the frontier, then the walk of the concatenated child
blocks: the defining equation of breadth-first order. -/
theorem walkLevels_eq (q : List Stmt) :
    walkLevels q = q ++ walkLevels (q.flatMap childStmts) := by
  cases q with
  | nil => simp [walkLevels, walkFuel, stmtsSize]
  | cons s r =>
    unfold walkLevels
    have hs := stmtSize_pos s
    obtain ⟨f, hf⟩ : ∃ f, stmtsSize (s :: r) = f + 1 :=
      ⟨stmtsSize (s :: r) - 1, by simp only [stmtsSize]; omega⟩
    rw [hf]
    simp only [walkFuel]
    congr 1
    apply walkFuel_congr
    · have := flatMap_childStmts_size (s :: r)
      simp only [List.length_cons] at this
      omega
    · exact le_refl _

/-- Descendant relation on statement nodes: reflexive-transitive closure of
being a child statement. -/
inductive Desc : Stmt → Stmt → Prop
  | refl (s : Stmt) : Desc s s
  | step {s t u : Stmt} : t ∈ childStmts s → Desc t u → Desc s u

/-- A node appears in the breadth-first walk of a frontier iff it is a
descendant of some frontier node. -/
theorem mem_walkLevels (q : List Stmt) (x : Stmt) :
    x ∈ walkLevels q ↔ ∃ r ∈ q, Desc r x := by
  generalize hn : stmtsSize q = n
  induction n using Nat.strong_induction_on generalizing q with
  | _ n ih =>
    subst hn
    rw [walkLevels_eq, List.mem_append]
    constructor
    · rintro (hx | hx)
      · exact ⟨x, hx, Desc.refl x⟩
      · cases q with
        | nil => simp [walkLevels, walkFuel] at hx
        | cons s r =>
          have hlt : stmtsSize ((s :: r).flatMap childStmts) < stmtsSize (s :: r) := by
            have := flatMap_childStmts_size (s :: r)
            simp only [List.length_cons] at this
            omega
          rw [ih _ hlt _ rfl] at hx
          obtain ⟨t, ht, hd⟩ := hx
          obtain ⟨p, hp, htp⟩ := List.mem_flatMap.mp ht
          exact ⟨p, hp, Desc.step htp hd⟩
    · rintro ⟨r, hr, hd⟩
      cases hd with
      | refl => left; exact hr
      | step htc hdu =>
        right
        cases q with
        | nil => cases hr
        | cons s rr =>
          have hlt : stmtsSize ((s :: rr).flatMap childStmts) < stmtsSize (s :: rr) := by
            have := flatMap_childStmts_size (s :: rr)
            simp only [List.length_cons] at this
            omega
          rw [ih _ hlt _ rfl]
          exact ⟨_, List.mem_flatMap.mpr ⟨r, hr, htc⟩, hdu⟩

mutual
/-- Modelled from the spec: the body scan of section 4.2, which recurses
through nested control structures but does NOT descend into nested
function or closure definitions.  This definition follows the words of
the spec; the source function `function_has_return_value` is compared
against it. -/
def specStmtHasReturn : Stmt → Bool
  | .ret (some _) => true
  | .branch b o => specStmtsHaveReturn b || specStmtsHaveReturn o
  | _ => false
/-- Modelled from the spec: the body scan over a block (see
`specStmtHasReturn`). -/
def specStmtsHaveReturn : List Stmt → Bool
  | [] => false
  | s :: r => specStmtHasReturn s || specStmtsHaveReturn r
end

/-- Modelled from the spec: `returnsValue` as described in sections 3 and
4.2 (a value-carrying return in the own body, nested definitions not
entered). -/
def specReturnsValueNoDescend (f : FunctionDef) : Bool :=
  specStmtsHaveReturn f.body

/-!
The claims.
-/

/-- Concrete function for claim C1: one parameter `x` with no annotation
and no entry in the Args block; annotation, body and docstring are chosen
so that no return-type or order finding can interfere. -/
def cexC1 : FunctionDef :=
  ⟨"f", 1, [⟨"x", none⟩], [], some "int",
   some "Doc.\n\nArgs:\n    x: no type\n\nReturns:\n    int: r", [.ret (some "x")]⟩

/-- C1 counterexample: for the untyped, undocumented parameter `x` the
engine emits the `Docstring not found.` finding (line 204) even with
`verbose = false`, where the claim promises no finding; with
`verbose = true` it emits two findings for `x`, where the claim promises
exactly one `UntypedParameterWarning`. -/
theorem C1_counterexample :
    check_function cexC1 false = some [Finding.docstringNotFound] ∧
    check_function cexC1 true =
      some [Finding.untypedParameterWarning "x", Finding.docstringNotFound] := by decide

/-- C1 (amended): for every non-instance parameter with no declared type
and no entry in the parameter docs, `check_function` emits the
`Docstring not found.` finding for that parameter regardless of `verbose`,
preceded by an `UntypedParameterWarning` finding exactly when `verbose` is
true (so one finding when `verbose` is false, two when it is true). -/
theorem C1_untyped_undocumented_param (v : Bool) (docArgs : List (String × String))
    (name : String) (info : ArgInfo)
    (hself : name ≠ "self") (hty : info.type = none) (hdoc : dictGet docArgs name = none) :
    checkParam v docArgs name info =
      (if v then [Finding.untypedParameterWarning name] else []) ++ [Finding.docstringNotFound] := by
  simp [checkParam, hty, hdoc, hself, pyTruthy]

/-- Witness for C1 at a concrete parameter. -/
theorem C1_untyped_undocumented_param_witness :
    checkParam true [] "x" ⟨none, none⟩ =
      [Finding.untypedParameterWarning "x", Finding.docstringNotFound] :=
  C1_untyped_undocumented_param true [] "x" ⟨none, none⟩ (by decide) rfl rfl

/-- Concrete function for claim C2: one parameter `x` declared `str`
without default, documented as `x (str, optional)`. -/
def cexC2 : FunctionDef :=
  ⟨"g", 1, [⟨"x", some "str"⟩], [], some "int",
   some "Doc.\n\nArgs:\n    x (str, optional): d\n\nReturns:\n    int: r", [.ret (some "x")]⟩

/-- C2 counterexample: declared `str`, no default, documented
`str, optional` yields exactly one finding, but its kind is `TypeMismatch`
(line 197 fires because the documented text equals neither the declared
type nor the expected text, which has no `, optional` suffix when there is
no default), not `SpuriousOptionalMarker`. -/
theorem C2_counterexample :
    check_function cexC2 false = some [Finding.typeMismatch "x" "str" "str, optional"] ∧
    check_function cexC2 true = some [Finding.typeMismatch "x" "str" "str, optional"] := by decide

/-- C2 (amended): for a non-instance parameter with declared type `str`,
no default and documented type `str, optional`, the engine produces
exactly one finding for that parameter, of kind `TypeMismatch` carrying
the declared text `str` and the documented text `str, optional` (the
`SpuriousOptionalMarker` branch is unreachable here because the mismatch
branch is checked first). -/
theorem C2_spurious_optional_is_type_mismatch (v : Bool) (docArgs : List (String × String))
    (name : String)
    (hself : name ≠ "self") (hdoc : dictGet docArgs name = some "str, optional") :
    checkParam v docArgs name ⟨some "str", none⟩ =
      [Finding.typeMismatch name "str" "str, optional"] := by
  simp [checkParam, hdoc, hself, pyTruthy]

/-- Witness for C2 at a concrete parameter. -/
theorem C2_spurious_optional_is_type_mismatch_witness :
    checkParam false [("x", "str, optional")] "x" ⟨some "str", none⟩ =
      [Finding.typeMismatch "x" "str" "str, optional"] :=
  C2_spurious_optional_is_type_mismatch false [("x", "str, optional")] "x" (by decide) rfl

/-- Concrete function for claim C3: the only value-carrying return
statement sits inside a nested function definition. -/
def cexC3 : FunctionDef :=
  ⟨"f", 1, [], [], none, none,
   [.funcDef "g" 2 [] [] none none [.ret (some "1")]]⟩

/-- C3 counterexample: `function_has_return_value` uses `ast.walk`, which
descends into nested function definitions, so a function whose only
value-carrying return lies inside a nested definition still gets
`returnsValue = true`; the spec-modelled scan that does not descend
(`specReturnsValueNoDescend`, from section 4.2 of the spec) disagrees on
this input. -/
theorem C3_counterexample :
    function_has_return_value cexC3 = true ∧ specReturnsValueNoDescend cexC3 = false := by decide

/-- C3 (amended): `returnsValue` is true iff some descendant of the
function body, nested function definitions included, is a return
statement with a non-empty expression. -/
theorem C3_returns_value_descends_into_nested_defs (f : FunctionDef) :
    function_has_return_value f = true ↔
      ∃ r ∈ f.body, ∃ e, Desc r (Stmt.ret (some e)) := by
  unfold function_has_return_value
  rw [List.any_eq_true]
  constructor
  · rintro ⟨s, hs, hp⟩
    rw [mem_walkLevels] at hs
    obtain ⟨r, hr, hd⟩ := hs
    cases s with
    | ret val =>
      cases val with
      | none => simp at hp
      | some e => exact ⟨r, hr, e, hd⟩
    | funcDef n l a d rr doc b => simp at hp
    | branch b o => simp at hp
    | simple => simp at hp
  · rintro ⟨r, hr, e, hd⟩
    exact ⟨.ret (some e), (mem_walkLevels _ _).mpr ⟨r, hr, hd⟩, rfl⟩

/-- Witness for C3 (amended) at a concrete function whose nested
definition holds the only value return. -/
theorem C3_returns_value_descends_witness :
    function_has_return_value
      ⟨"w3", 1, [], [], none, none,
       [Stmt.funcDef "g" 2 [] [] none none [Stmt.ret (some "1")]]⟩ = true :=
  (C3_returns_value_descends_into_nested_defs _).mpr
    ⟨Stmt.funcDef "g" 2 [] [] none none [Stmt.ret (some "1")],
     by simp,
     "1",
     Desc.step (by simp [childStmts]) (Desc.refl _)⟩

/-- Concrete module body for claim C5: `outer` (line 1) contains the
nested `inner` (line 2); `later` (line 4) is a second top-level
function. -/
def cexC5 : List Stmt :=
  [.funcDef "outer" 1 [] [] none none [.funcDef "inner" 2 [] [] none none []],
   .funcDef "later" 4 [] [] none none []]

/-- C5 counterexample: `ast.walk` is breadth-first, so the nested `inner`
(source line 2) is returned after the top-level `later` (source line 4);
the position-1 element of the returned sequence has a later source line
than the position-2 element, refuting the source-order claim. -/
theorem C5_counterexample :
    (get_functions_from_file cexC5).map (fun f => (f.name, f.lineno)) =
      [("outer", 1), ("later", 4), ("inner", 2)] ∧
    ((get_functions_from_file cexC5).map FunctionDef.lineno).get? 1 = some 4 ∧
    ((get_functions_from_file cexC5).map FunctionDef.lineno).get? 2 = some 2 := by decide

/-- The function definitions sitting directly in a statement block, in
source order. -/
def topLevelFunctionDefs (q : List Stmt) : List FunctionDef :=
  q.filterMap stmtFuncView

/-- C5 (amended): `get_functions_from_file` returns every function
definition of the tree, nested ones included, in breadth-first order:
the top-level function definitions in source order, followed by the
functions of the next nesting level, and so on — so a nested function
defined at an earlier source line can follow a top-level function defined
at a later line. -/
theorem C5_functions_in_bfs_order (moduleBody : List Stmt) :
    (get_functions_from_file moduleBody =
      topLevelFunctionDefs moduleBody ++
        get_functions_from_file (moduleBody.flatMap childStmts)) ∧
    (∀ g : FunctionDef, g ∈ get_functions_from_file moduleBody ↔
      ∃ s ∈ moduleBody, ∃ t, Desc s t ∧ stmtFuncView t = some g) := by
  constructor
  · unfold get_functions_from_file topLevelFunctionDefs
    rw [walkLevels_eq, List.filterMap_append]
  · intro g
    unfold get_functions_from_file
    rw [List.mem_filterMap]
    constructor
    · rintro ⟨t, ht, hv⟩
      obtain ⟨s, hs, hd⟩ := (mem_walkLevels _ _).mp ht
      exact ⟨s, hs, t, hd, hv⟩
    · rintro ⟨s, hs, t, hd, hv⟩
      exact ⟨t, (mem_walkLevels _ _).mpr ⟨s, hs, hd⟩, hv⟩

/-- Witness for C5 (amended) at the concrete module body. -/
theorem C5_functions_in_bfs_order_witness :
    get_functions_from_file cexC5 =
      topLevelFunctionDefs cexC5 ++ get_functions_from_file (cexC5.flatMap childStmts) :=
  (C5_functions_in_bfs_order cexC5).1

/-- The finding kinds produced by the five return-type rules (the
order-mismatch finding is not counted as return-related, following the
spec wording). -/
def isReturnRelated : Finding → Bool
  | .noReturnTypeDeclared => true
  | .returnValueButNoneDeclared => true
  | .returnDeclaredButNoValue _ => true
  | .returnTypeMismatch _ _ => true
  | .returnTypeUndocumented _ => true
  | _ => false

/-- The per-parameter loop never emits a return-related finding kind. -/
theorem checkParam_not_return_related (v : Bool) (d : List (String × String))
    (n : String) (i : ArgInfo) :
    ∀ x ∈ checkParam v d n i, isReturnRelated x = false := by
  intro x hx
  simp only [checkParam] at hx
  repeat' first
    | (rw [List.mem_append] at hx; rcases hx with hx | hx)
    | split at hx
  all_goals simp_all [isReturnRelated]

/-- The whole parameter part of the findings list contains no
return-related finding. -/
theorem paramPart_not_return_related (v : Bool) (d : List (String × String))
    (ai : List (String × ArgInfo)) :
    ∀ x ∈ (ai.map (fun p => checkParam v d p.1 p.2)).flatten, isReturnRelated x = false := by
  intro x hx
  rw [List.mem_flatten] at hx
  obtain ⟨sub, hsub, hxs⟩ := hx
  rw [List.mem_map] at hsub
  obtain ⟨p, _, rfl⟩ := hsub
  exact checkParam_not_return_related v d p.1 p.2 x hxs

/-- The return-rule chain emits at most one finding. -/
theorem returnRuleFindings_length (f : FunctionDef) (doc : Option String) :
    (returnRuleFindings f doc).length ≤ 1 := by
  simp only [returnRuleFindings]
  split_ifs <;> simp

/-- The chain of lines 205-222 contains at most one return-related
finding (the order-mismatch finding does not count). -/
theorem returnAndOrder_countP_le_one (f : FunctionDef) (doc : Option String) (v : Bool) :
    (returnAndOrderFindings f doc v).countP isReturnRelated ≤ 1 := by
  unfold returnAndOrderFindings
  split
  · split
    · simp [List.countP_cons, List.countP_nil, isReturnRelated]
    · simp [List.countP_nil]
  · exact le_trans (List.countP_le_length _) (returnRuleFindings_length f doc)

/-- C4: the return-type rules short-circuit, so at most one return-related
finding appears in the finding list of any function; and a function with a
value-returning statement and no return annotation at all gets exactly the
`NoReturnTypeDeclared` finding among the return-related ones (in
particular never `ReturnValueButNoneDeclared`). -/
theorem C4_return_rules_short_circuit (f : FunctionDef) (v : Bool) (l : List Finding)
    (h : check_function f v = some l) :
    l.countP isReturnRelated ≤ 1 ∧
    (f.returns = none → function_has_return_value f = true →
      l.filter isReturnRelated = [Finding.noReturnTypeDeclared]) := by
  unfold check_function at h
  cases hg : get_function_args_with_defaults f with
  | none => rw [hg] at h; cases h
  | some ai =>
    rw [hg] at h
    simp only [Option.some.injEq] at h
    subst h
    constructor
    · rw [List.countP_append]
      have h1 : ((ai.map (fun p =>
          checkParam v (extract_args_from_docstring f.docstring) p.1 p.2)).flatten).countP
            isReturnRelated = 0 := by
        rw [List.countP_eq_zero]
        intro x hx
        simp [paramPart_not_return_related v _ ai x hx]
      rw [h1]
      simpa using returnAndOrder_countP_le_one f f.docstring v
    · intro hret _
      rw [List.filter_append]
      have h1 : ((ai.map (fun p =>
          checkParam v (extract_args_from_docstring f.docstring) p.1 p.2)).flatten).filter
            isReturnRelated = [] := by
        rw [List.filter_eq_nil_iff]
        intro x hx
        simp [paramPart_not_return_related v _ ai x hx]
      rw [h1]
      unfold returnAndOrderFindings returnRuleFindings extract_return_from_function
      rw [hret]
      simp [pyTruthy, isReturnRelated]

/-- Concrete function for the C4 witness: a value-returning body and no
return annotation. -/
def cexC4 : FunctionDef := ⟨"k", 1, [], [], none, none, [.ret (some "1")]⟩

/-- Witness for C4 at the concrete function. -/
theorem C4_return_rules_short_circuit_witness :
    ([Finding.noReturnTypeDeclared].countP isReturnRelated ≤ 1) ∧
    [Finding.noReturnTypeDeclared].filter isReturnRelated = [Finding.noReturnTypeDeclared] := by
  have h := C4_return_rules_short_circuit cexC4 false [Finding.noReturnTypeDeclared] (by decide)
  exact ⟨h.1, h.2 rfl (by decide)⟩

/-- Docstring with canonical header casing for claim C6. -/
def docC6Canonical : String := "Doc.\n\nArgs:\n    x (int): d\n\nReturns:\n    int: r"

/-- The same docstring with lower-case headers. -/
def docC6Lower : String := "Doc.\n\nargs:\n    x (int): d\n\nreturns:\n    int: r"

/-- C6 counterexample: the patterns of `extract_args_from_docstring`
(line 55) and `extract_return_from_docstring` (line 159) are compiled
without `IGNORECASE`, so changing the casing of `Args:` or `Returns:`
empties the parameter docs and the documented return type, refuting the
claim that any casing yields the same result. -/
theorem C6_counterexample :
    extract_args_from_docstring (some docC6Canonical) = [("x", "int")] ∧
    extract_args_from_docstring (some docC6Lower) = [] ∧
    extract_return_from_docstring (some docC6Canonical) = some "int" ∧
    extract_return_from_docstring (some docC6Lower) = none := by decide

/-- C6 (amended): only the parameter-order scan locates its header
case-insensitively (any line whose lowercased strip starts with `args:`
opens the block, line 83 of the source); the parameter-docs extraction
and the return extraction match the literals `Args:` and `Returns:`
case-sensitively, so a recased header yields empty results there. -/
theorem C6_header_case_sensitivity :
    (∀ (line : List Char) (rest : List (List Char)) (b : Bool),
      startsWithChars ("args:".data) (lowerChars (stripChars line)) = true →
      argOrderLoop b (line :: rest) = argOrderLoop true rest) ∧
    extract_docstring_arg_order (some docC6Canonical) = ["x"] ∧
    extract_docstring_arg_order (some docC6Lower) = ["x"] ∧
    extract_args_from_docstring (some docC6Lower) = [] ∧
    extract_return_from_docstring (some docC6Lower) = none := by
  refine ⟨?_, by decide, by decide, by decide, by decide⟩
  intro line rest b h
  simp [argOrderLoop, h]

/-- Witness for C6 (amended): the header test of the order scan accepts an
upper-case header line. -/
theorem C6_header_case_sensitivity_witness :
    argOrderLoop false (("ARGS:".data) :: []) = argOrderLoop true [] :=
  C6_header_case_sensitivity.1 ("ARGS:".data) [] false (by decide)

/-- C7: for a function with declared parameter order `a, b`, documented
order `b, a`, no parameter-side findings and no return-rule finding, the
engine yields zero findings when `verbose` is false and exactly one
`ArgumentOrderMismatch` when `verbose` is true (the order rule sits in the
same `elif` chain as the five return rules, so it runs only when none of
them fired, and only with `verbose`). -/
theorem C7_order_mismatch_verbose_only (f : FunctionDef)
    (hsig : nonSelfNames f = ["a", "b"])
    (hdoc : extract_docstring_arg_order f.docstring = ["b", "a"])
    (hparams : ∀ v, paramFindings f v = some [])
    (hret : returnRuleFindings f f.docstring = []) :
    check_function f false = some [] ∧
    check_function f true = some [Finding.argumentOrderMismatch ["a", "b"] ["b", "a"]] := by
  cases hg : get_function_args_with_defaults f with
  | none =>
    exfalso
    have hp := hparams false
    unfold paramFindings at hp
    rw [hg] at hp
    cases hp
  | some ai =>
    have hflat : ∀ v : Bool, (ai.map (fun p =>
        checkParam v (extract_args_from_docstring f.docstring) p.1 p.2)).flatten = [] := by
      intro v
      have hp := hparams v
      unfold paramFindings at hp
      rw [hg] at hp
      simpa using hp
    have hrar : ∀ v : Bool, returnAndOrderFindings f f.docstring v =
        (if nonSelfNames f ≠ extract_docstring_arg_order f.docstring ∧ v = true then
          [Finding.argumentOrderMismatch (nonSelfNames f) (extract_docstring_arg_order f.docstring)]
         else []) := by
      intro v
      unfold returnAndOrderFindings
      rw [hret]
    constructor
    · unfold check_function
      rw [hg]
      simp only [hflat false, hrar false, hsig, hdoc]
      simp
    · unfold check_function
      rw [hg]
      simp only [hflat true, hrar true, hsig, hdoc]
      simp

/-- Concrete function for the C7 witness: parameters `(a, b)` documented
in the order `(b, a)` with fully matching types and return
documentation. -/
def witC7 : FunctionDef :=
  ⟨"h", 1, [⟨"a", some "int"⟩, ⟨"b", some "int"⟩], [], some "int",
   some "Doc.\n\nArgs:\n    b (int): bb\n    a (int): aa\n\nReturns:\n    int: r", [.ret (some "a")]⟩

/-- Witness for C7 at the concrete function. -/
theorem C7_order_mismatch_verbose_only_witness :
    check_function witC7 false = some [] ∧
    check_function witC7 true = some [Finding.argumentOrderMismatch ["a", "b"] ["b", "a"]] :=
  C7_order_mismatch_verbose_only witC7 (by decide) (by decide) (by decide) (by decide)

/-- The loop of `get_function_args_with_defaults` never hits the
`IndexError` case: whenever the enumeration index satisfies
`i >= num_args - num_defaults`, the default index
`i - (num_args - num_defaults)` is in range. -/
theorem gfawdLoop_total (defaults : List String) :
    ∀ (rest : List Arg) (i : Nat) (acc : List (String × ArgInfo)) (nA : Int),
      (i : Int) + rest.length = nA →
      ∃ r, gfawdLoop nA (defaults.length : Int) defaults i rest acc = some r := by
  intro rest
  induction rest with
  | nil => intro i acc nA _; exact ⟨acc, rfl⟩
  | cons a rest ih =>
    intro i acc nA h
    simp only [List.length_cons] at h
    simp only [gfawdLoop]
    by_cases hd : nA - (defaults.length : Int) ≤ (i : Int)
    · have hidx : 0 ≤ (i : Int) - (nA - (defaults.length : Int)) ∧
          (i : Int) - (nA - (defaults.length : Int)) < ((defaults.length : Int)) := by
        push_cast at h
        omega
      obtain ⟨val, hval⟩ : ∃ v2,
          defaults.get? ((i : Int) - (nA - (defaults.length : Int))).toNat = some v2 := by
        cases hgv : defaults.get? ((i : Int) - (nA - (defaults.length : Int))).toNat with
        | none =>
          exfalso
          rw [List.get?_eq_none] at hgv
          omega
        | some v2 => exact ⟨v2, rfl⟩
      have hpy : pyIndex defaults ((i : Int) - (nA - (defaults.length : Int))) = some val := by
        unfold pyIndex
        rw [if_pos hidx]
        exact hval
      simp only [decide_eq_true hd, if_true, hpy, Option.map_some']
      apply ih
      push_cast
      omega
    · simp only [decide_eq_false hd, if_false]
      apply ih
      push_cast
      omega

/-- C8: `check_function` is total.  The only fallible operation it
performs is the `defaults` subscription of
`get_function_args_with_defaults`; every other branch (absent docstring,
absent annotations, absent defaults, unrecognized sections) degrades to a
defined result, so for every function node and either `verbose` value a
findings list is produced. -/
theorem C8_check_function_total (f : FunctionDef) (v : Bool) :
    ∃ l, check_function f v = some l := by
  obtain ⟨r, hr⟩ := gfawdLoop_total f.defaults f.args 0 [] (f.args.length : Int) (by simp)
  have hg : get_function_args_with_defaults f = some r := hr
  unfold check_function
  rw [hg]
  exact ⟨_, rfl⟩

/-- Witness-style instance of C8 at a concrete function. -/
theorem C8_check_function_total_witness :
    ∃ l, check_function ⟨"w8", 1, [⟨"x", some "int"⟩], ["0"], none, none, []⟩ false = some l :=
  C8_check_function_total ⟨"w8", 1, [⟨"x", some "int"⟩], ["0"], none, none, []⟩ false

/-- C9: the analysis is a deterministic function of the function node and
the `verbose` flag: two runs on equal inputs return equal ordered finding
lists (the embedding of `check_function` is a pure function; the source
touches no global state and consults no environment). -/
theorem C9_check_function_deterministic (f g : FunctionDef) (v w : Bool)
    (hf : f = g) (hv : v = w) : check_function f v = check_function g w := by
  subst hf
  subst hv
  rfl

/-- Concrete function for the C9 witness. -/
def witC9 : FunctionDef :=
  ⟨"w9", 3, [⟨"x", some "int"⟩], [], some "int",
   some "Doc.\n\nArgs:\n    x (int): d\n\nReturns:\n    int: r", [.ret (some "x")]⟩

/-- Witness for C9 at a concrete function. -/
theorem C9_check_function_deterministic_witness :
    check_function witC9 true = check_function witC9 true :=
  C9_check_function_deterministic witC9 witC9 true true rfl rfl

/-- The order scan never reports the name `self` (the guard on line 91 of
the source). -/
theorem self_not_in_argOrderLoop (lines : List (List Char)) :
    ∀ b : Bool, "self" ∉ argOrderLoop b lines := by
  induction lines with
  | nil => intro b; simp [argOrderLoop]
  | cons line rest ih =>
    intro b
    simp only [argOrderLoop]
    split
    · exact ih true
    · split
      · split
        · simp
        · split
          · simp
          · split
            · split
              · rename_i hne
                intro hmem
                rcases List.mem_cons.mp hmem with heq | hmem2
                · exact hne heq.symm
                · exact ih b hmem2
              · exact ih b
            · exact ih b
      · exact ih b

/-- C10: a parameter named `self` is excluded everywhere, regardless of
its position: the per-parameter loop skips it (line 185), the
signature-side ordering of the order check filters it out (line 221), and
the docstring-side ordering never contains it (line 91) — so a non-first
parameter named `self` never produces a finding. -/
theorem C10_self_excluded_everywhere :
    (∀ (v : Bool) (d : List (String × String)) (i : ArgInfo), checkParam v d "self" i = []) ∧
    (∀ f : FunctionDef, "self" ∉ nonSelfNames f) ∧
    (∀ doc : Option String, "self" ∉ extract_docstring_arg_order doc) := by
  refine ⟨?_, ?_, ?_⟩
  · intro v d i
    simp [checkParam]
  · intro f
    simp [nonSelfNames]
  · intro doc
    unfold extract_docstring_arg_order
    split
    · simp
    · exact self_not_in_argOrderLoop _ false

/-- Witness for C10: a second-position `self` parameter yields no finding
in the per-parameter loop. -/
theorem C10_self_excluded_everywhere_witness :
    checkParam true [("self", "int")] "self" ⟨some "str", some "0"⟩ = [] :=
  C10_self_excluded_everywhere.1 true [("self", "int")] ⟨some "str", some "0"⟩
